import Mathlib

/-!
# Verification of the Risk Calculation Engine of `dashboard.py`

A shallow embedding of the pure computational core of the risk-management
dashboard (`src/dashboard.py`): the open-risk formulas, the regime parameter
lookup, the regime classifier's pure decision layer, position add/merge,
stop updates, full and partial exits, the hybrid sizing block, and the
partial-exit-aware expectancy computation.  Prices and money amounts are
modelled as rationals, share quantities as integers (the SQLite columns are
REAL and INTEGER respectively).
-/

namespace RiskOS

/-- A row of the `portfolio` table (one open position, keyed by ticker).
Fields follow the schema created in `init_db` / `update_db_schema`:
`entry_price REAL, stop_loss REAL, quantity INTEGER, sector TEXT,
entry_date TEXT, breakdown_low REAL (nullable), initial_stop_loss REAL
(nullable)`. -/
structure Position where
  entry_price : ℚ
  stop_loss : ℚ
  quantity : ℤ
  sector : String
  entry_date : String
  breakdown_low : Option ℚ
  initial_stop_loss : Option ℚ
  deriving Repr, DecidableEq

/-- A row of the `trade_history` table: one exit event (full close or a
partial exit). -/
structure TradeRow where
  ticker : String
  entry_date : String
  exit_date : String
  entry_price : ℚ
  exit_price : ℚ
  r_multiple : ℚ
  trade_id : String
  exit_qty : ℤ
  deriving Repr, DecidableEq

/-- `calculate_or_r` (src/dashboard.py:488): Open Risk in R units,
`|entry - stop| * quantity / current_1r_unit`, guarded to `0` when the 1R
unit is not positive. -/
def calculate_or_r (entry_price stop_loss : ℚ) (quantity : ℤ)
    (current_1r_unit : ℚ) : ℚ :=
  let or_amount := |entry_price - stop_loss| * (quantity : ℚ)
  if current_1r_unit > 0 then or_amount / current_1r_unit else 0

/-- `calculate_dynamic_or` (src/dashboard.py:493): dynamic Open Risk using
the current stop; `0` once the stop is at or above the entry, otherwise
`(entry - stop) * quantity / current_1r_unit`, guarded to `0` when the 1R
unit is not positive. -/
def calculate_dynamic_or (entry_price stop_loss : ℚ) (quantity : ℤ)
    (current_1r_unit : ℚ) : ℚ :=
  if stop_loss ≥ entry_price then 0
  else
    let or_amount := (entry_price - stop_loss) * (quantity : ℚ)
    if current_1r_unit > 0 then or_amount / current_1r_unit else 0

/-- The parameter record attached to each market regime by
`get_regime_params`. -/
structure RegimeParams where
  tor_limit : ℚ
  r_multiplier : ℚ
  color : String
  deriving Repr, DecidableEq

/-- `get_regime_params` (src/dashboard.py:515): the regime parameter table.
The Python dict lookup `params.get(regime, params["GREEN"])` falls back to
the GREEN entry for any key other than GREEN/YELLOW/RED.  (The human-readable
`desc` strings of the source are omitted; the numeric parameters and colors
are kept.) -/
def get_regime_params (regime : String) : RegimeParams :=
  if regime = "GREEN" then ⟨5, 1, "#00c864"⟩
  else if regime = "YELLOW" then ⟨3, 1/2, "#ffaa00"⟩
  else if regime = "RED" then ⟨1, 1/4, "#ff3232"⟩
  else ⟨5, 1, "#00c864"⟩

/-- The pure decision core of `suggest_market_regime(checklist_count,
recent_win_rate)` (src/dashboard.py:625), on the path where SPY/RSP data is
available: the two trend proxies are reduced to the comparisons of current
close against the 20-period moving average, then Layer 1 picks the base
regime, Layer 2 forces RED when the recent win rate is below 20, and
Layer 3 downgrades one level when the checklist count is at least 3.
The yfinance fetch and the UNKNOWN/ERROR returns for unavailable data are
the impure wrapper around this core. -/
def suggest_market_regime (spy_curr spy_sma rsp_curr rsp_sma : ℚ)
    (checklist_count : ℕ) (recent_win_rate : ℚ) : String :=
  let base_regime :=
    if spy_curr > spy_sma ∧ rsp_curr > rsp_sma then "GREEN"
    else if spy_curr < spy_sma ∧ rsp_curr < rsp_sma then "RED"
    else "YELLOW"
  if recent_win_rate < 20 then "RED"
  else if checklist_count ≥ 3 then
    if base_regime = "GREEN" then "YELLOW"
    else if base_regime = "YELLOW" then "RED"
    else base_regime
  else base_regime

/-- The portfolio table: ticker is the PRIMARY KEY, so the table is a
partial map from tickers to positions. -/
def Portfolio : Type := String → Option Position

/-- `add_position` (src/dashboard.py:173), restricted to one ticker's row:
given the existing row for the (upper-cased) ticker, the new fill's entry,
stop, quantity and sector, and the current date string, produce the row
written back.  When a row exists the fills are merged: the new
`entry_price` is the volume-weighted average
`((old_price * old_qty) + (entry * qty)) / total_qty`, `quantity` is the
sum, and both `stop_loss` and `initial_stop_loss` are set to the new
fill's stop; `entry_date` and `breakdown_low` are not touched by the
UPDATE.  When no row exists, a fresh row is inserted with
`initial_stop_loss = stop` and a null `breakdown_low`. -/
def add_position (existing : Option Position) (entry stop : ℚ) (qty : ℤ)
    (sector : String) (today : String) : Position :=
  match existing with
  | some old =>
      let total_qty := old.quantity + qty
      let wac_price :=
        ((old.entry_price * (old.quantity : ℚ)) + (entry * (qty : ℚ))) /
          (total_qty : ℚ)
      { old with
        entry_price := wac_price
        quantity := total_qty
        stop_loss := stop
        sector := sector
        initial_stop_loss := some stop }
  | none =>
      { entry_price := entry
        stop_loss := stop
        quantity := qty
        sector := sector
        entry_date := today
        breakdown_low := none
        initial_stop_loss := some stop }

/-- `update_stop_loss` (src/dashboard.py:313):
`UPDATE portfolio SET stop_loss = ? WHERE ticker = ?` — replaces the
`stop_loss` field of the row whose ticker matches, leaves every other row
and every other field alone. -/
def update_stop_loss (portfolio : Portfolio) (ticker : String)
    (new_stop_price : ℚ) : Portfolio :=
  fun tk =>
    if tk = ticker then
      (portfolio tk).map (fun p => { p with stop_loss := new_stop_price })
    else portfolio tk

/-- The outcome of an exit operation (`close_position` or
`process_partial_exit`): the `trade_history` row inserted, the realized
P&L credited to `account_config.total_equity`, and the portfolio row
written back (`none` when the position row is deleted). -/
structure ExitResult where
  row : TradeRow
  pnl_dollars : ℚ
  new_position : Option Position
  deriving Repr, DecidableEq

/-- `close_position(ticker, exit_price, qty_to_close)`
(src/dashboard.py:241), given the fetched position row for `ticker`:
the requested quantity is clamped to the held quantity
(`if qty_to_close > current_qty: qty_to_close = current_qty`);
`r_unit = |entry - initial_stop|` (falling back to the current stop when
`initial_stop_loss` is NULL) and
`r_multiple = (exit_price - entry) / r_unit` unless `r_unit` is zero, in
which case `r_multiple = 0`; a `trade_history` row tagged
`trade_id = ticker_entrydate` is inserted; equity is credited by
`(exit_price - entry) * qty_to_close`; the position keeps
`current_qty - qty_to_close` shares, the row being deleted when that
remainder is not positive. -/
def close_position (ticker : String) (pos : Position) (exit_price : ℚ)
    (qty_to_close : ℤ) (today : String) : ExitResult :=
  let init_stop := pos.initial_stop_loss.getD pos.stop_loss
  let qty := if qty_to_close > pos.quantity then pos.quantity else qty_to_close
  let r_unit := |pos.entry_price - init_stop|
  let r_multiple := if r_unit ≠ 0 then (exit_price - pos.entry_price) / r_unit else 0
  let trade_id := ticker ++ "_" ++ pos.entry_date
  let remaining_qty := pos.quantity - qty
  { row :=
      { ticker := ticker
        entry_date := pos.entry_date
        exit_date := today
        entry_price := pos.entry_price
        exit_price := exit_price
        r_multiple := r_multiple
        trade_id := trade_id
        exit_qty := qty }
    pnl_dollars := (exit_price - pos.entry_price) * (qty : ℚ)
    new_position :=
      if remaining_qty > 0 then some { pos with quantity := remaining_qty }
      else none }

/-- `process_partial_exit(ticker, exit_qty, exit_px, entry_px,
current_1r_unit)` (src/dashboard.py:321), given the fetched position row:
the frozen denominator is `|entry_px - initial_stop|` (falling back to the
current stop when `initial_stop_loss` is NULL), `realized_r` is
`(exit_px - entry_px)` over it when it is positive and `0` otherwise;
a `trade_history` row is inserted with ticker suffixed `(P)` and the
requested `exit_qty` — the source applies no clamp here; equity is
credited by `(exit_px - entry_px) * exit_qty`; the position's quantity is
decremented by the requested `exit_qty` and the row is deleted when the
remainder is `≤ 0`. -/
def processPartialExit (ticker : String) (pos : Position) (exit_qty : ℤ)
    (exit_px entry_px : ℚ) (today : String) : ExitResult :=
  let calc_stop := pos.initial_stop_loss.getD pos.stop_loss
  let r_unit_fixed := |entry_px - calc_stop|
  let realized_r := if r_unit_fixed > 0 then (exit_px - entry_px) / r_unit_fixed else 0
  let trade_id := ticker ++ "_" ++ pos.entry_date
  let remaining_qty := pos.quantity - exit_qty
  { row :=
      { ticker := ticker ++ "(P)"
        entry_date := pos.entry_date
        exit_date := today
        entry_price := entry_px
        exit_price := exit_px
        r_multiple := realized_r
        trade_id := trade_id
        exit_qty := exit_qty }
    pnl_dollars := (exit_px - entry_px) * (exit_qty : ℚ)
    new_position :=
      if remaining_qty ≤ 0 then none
      else some { pos with quantity := remaining_qty } }

/-- Python's `int()` applied to a nonnegative-or-negative rational:
truncation toward zero. -/
def pyInt (q : ℚ) : ℤ := if 0 ≤ q then ⌊q⌋ else ⌈q⌉

/-- `BASE_1R_PCT` (src/dashboard.py:22). -/
def BASE_1R_PCT : ℚ := 1/100

/-- `MAX_POS_SIZE_PCT` (src/dashboard.py:23). -/
def MAX_POS_SIZE_PCT : ℚ := 20/100

/-- The numbers computed by the Hybrid Risk Engine sizing block. -/
structure SizingResult where
  theoretical_shares : ℤ
  max_cap_shares : ℤ
  final_shares : ℤ
  final_or_r : ℚ
  deriving Repr, DecidableEq

/-- The Hybrid Risk Engine sizing block (src/dashboard.py:864, section 6-1):
sizing is produced only on the branch `entry_p > stop_p and entry_p > 0`;
otherwise (`entry_p <= stop_p`) the block shows the InvalidInput error and
computes nothing, modelled as `none`.  On the valid branch:
`active_1r_unit = total_equity * (BASE_1R_PCT * r_multiplier)`,
`theoretical_shares = int(active_1r_unit / stop_dist)`,
`max_cap_shares = int(total_equity * MAX_POS_SIZE_PCT / entry_p)`,
`final_shares = min` of the two, and
`final_or_r = final_shares * stop_dist / active_1r_unit`. -/
def sizePosition (total_equity entry_p stop_p r_multiplier : ℚ) :
    Option SizingResult :=
  if entry_p > stop_p ∧ entry_p > 0 then
    let stop_dist := entry_p - stop_p
    let active_1r_unit := total_equity * (BASE_1R_PCT * r_multiplier)
    let theoretical_shares := pyInt (active_1r_unit / stop_dist)
    let max_cap_dollars := total_equity * MAX_POS_SIZE_PCT
    let max_cap_shares := pyInt (max_cap_dollars / entry_p)
    let final_shares := min theoretical_shares max_cap_shares
    let final_or_r := (final_shares : ℚ) * stop_dist / active_1r_unit
    some
      { theoretical_shares := theoretical_shares
        max_cap_shares := max_cap_shares
        final_shares := final_shares
        final_or_r := final_or_r }
  else none

/-- The summed `exit_qty` of a list of trade-history rows — in
`calculate_real_expectancy` (src/dashboard.py:458) this is
`df.groupby('trade_id')['exit_qty'].transform('sum')` restricted to one
`trade_id` group. -/
def total_qty (rows : List TradeRow) : ℤ :=
  (rows.map (fun r => r.exit_qty)).sum

/-- One group's `total_trade_r` in `calculate_real_expectancy`
(src/dashboard.py:458): each row's weight is
`exit_qty / total_qty_per_trade` (the NaN of an all-zero group is filled
with 0, which rational division by zero also yields), its contribution is
`r_multiple * weight`, and the group total is the sum of contributions. -/
def total_trade_r (rows : List TradeRow) : ℚ :=
  (rows.map
    (fun r => r.r_multiple * ((r.exit_qty : ℚ) / ((total_qty rows : ℤ) : ℚ)))).sum

/-- The total exit P&L in currency of a list of trade-history rows: the sum
of the per-row equity credits `(exit_price - entry_price) * exit_qty`
applied by `close_position` / `process_partial_exit`. -/
def total_pnl (rows : List TradeRow) : ℚ :=
  (rows.map (fun r => (r.exit_price - r.entry_price) * (r.exit_qty : ℚ))).sum

/-! ## Concrete data used by witnesses -/

/-- A sample open position: entry 100, current stop 95, 20 shares, frozen
initial stop 95 (the spec's worked sizing/closing example). -/
def posAAPL : Position :=
  { entry_price := 100, stop_loss := 95, quantity := 20, sector := "Tech/AI",
    entry_date := "2026-01-05", breakdown_low := none,
    initial_stop_loss := some 95 }

/-- A second sample position on another ticker. -/
def posMSFT : Position :=
  { entry_price := 50, stop_loss := 45, quantity := 10, sector := "IT",
    entry_date := "2026-01-06", breakdown_low := none,
    initial_stop_loss := some 45 }

/-- A degenerate position whose frozen stop equals its entry. -/
def posDegen : Position :=
  { entry_price := 100, stop_loss := 100, quantity := 10, sector := "IT",
    entry_date := "2026-01-07", breakdown_low := none,
    initial_stop_loss := some 100 }

/-- A small position used to exercise an over-sized partial exit. -/
def posSmall : Position :=
  { entry_price := 10, stop_loss := 9, quantity := 5, sector := "Energy",
    entry_date := "2026-01-08", breakdown_low := none,
    initial_stop_loss := some 9 }

/-- A sample two-ticker portfolio map. -/
def pfEx : Portfolio := fun tk =>
  if tk = "AAPL" then some posAAPL
  else if tk = "MSFT" then some posMSFT
  else none

/-! ## Theorems for the claims -/

/-- Helper: with a nonnegative quantity the dynamic open risk is never
negative. -/
lemma calculate_dynamic_or_nonneg (e s : ℚ) (q : ℤ) (u : ℚ) (hq : 0 ≤ q) :
    0 ≤ calculate_dynamic_or e s q u := by
  simp only [calculate_dynamic_or]
  split_ifs with h1 h2
  · exact le_refl 0
  · apply div_nonneg _ (le_of_lt h2)
    apply mul_nonneg (by linarith [not_le.mp h1]) (by exact_mod_cast hq)
  · exact le_refl 0

/-- C4: for a position with fixed entry, quantity and a positive 1R unit,
`calculate_dynamic_or` is `0` whenever the stop is at or above the entry,
is `(entry - stop) * quantity / unit` otherwise, and is monotonically
non-increasing as the stop rises. -/
theorem dynamic_or_cases_and_monotone (e : ℚ) (q : ℤ) (u : ℚ)
    (hu : 0 < u) (hq : 0 ≤ q) :
    (∀ s, e ≤ s → calculate_dynamic_or e s q u = 0) ∧
    (∀ s, s < e → calculate_dynamic_or e s q u = (e - s) * (q : ℚ) / u) ∧
    (∀ s₁ s₂, s₁ ≤ s₂ →
      calculate_dynamic_or e s₂ q u ≤ calculate_dynamic_or e s₁ q u) := by
  refine ⟨?_, ?_, ?_⟩
  · intro s hs
    simp [calculate_dynamic_or, hs]
  · intro s hs
    simp [calculate_dynamic_or, not_le.mpr hs, hu]
  · intro s₁ s₂ h12
    by_cases h2 : s₂ ≥ e
    · have : calculate_dynamic_or e s₂ q u = 0 := by
        simp [calculate_dynamic_or, h2]
      rw [this]
      exact calculate_dynamic_or_nonneg e s₁ q u hq
    · have hs2 : s₂ < e := not_le.mp h2
      have hs1 : s₁ < e := lt_of_le_of_lt h12 hs2
      have e2 : calculate_dynamic_or e s₂ q u = (e - s₂) * (q : ℚ) / u := by
        simp [calculate_dynamic_or, not_le.mpr hs2, hu]
      have e1 : calculate_dynamic_or e s₁ q u = (e - s₁) * (q : ℚ) / u := by
        simp [calculate_dynamic_or, not_le.mpr hs1, hu]
      rw [e1, e2]
      have hqq : (0 : ℚ) ≤ (q : ℚ) := by exact_mod_cast hq
      exact div_le_div_of_nonneg_right
        (mul_le_mul_of_nonneg_right (by linarith) hqq) (le_of_lt hu)

/-- Witness for `dynamic_or_cases_and_monotone` at `e = 100`, `q = 20`,
`u = 100`. -/
theorem dynamic_or_cases_and_monotone_witness :
    calculate_dynamic_or 100 102 20 100 = 0 ∧
    calculate_dynamic_or 100 95 20 100 = (100 - 95) * ((20 : ℤ) : ℚ) / 100 ∧
    calculate_dynamic_or 100 98 20 100 ≤ calculate_dynamic_or 100 95 20 100 :=
  ⟨(dynamic_or_cases_and_monotone 100 20 100 (by norm_num) (by norm_num)).1
      102 (by norm_num),
   (dynamic_or_cases_and_monotone 100 20 100 (by norm_num) (by norm_num)).2.1
      95 (by norm_num),
   (dynamic_or_cases_and_monotone 100 20 100 (by norm_num) (by norm_num)).2.2
      95 98 (by norm_num)⟩

/-- C5: whatever the two trend-proxy comparisons and the checklist count,
a recent win rate below 20 forces the regime RED. -/
theorem regime_feedback_forces_red (spy_curr spy_sma rsp_curr rsp_sma : ℚ)
    (checklist_count : ℕ) (recent_win_rate : ℚ)
    (hw : recent_win_rate < 20) :
    suggest_market_regime spy_curr spy_sma rsp_curr rsp_sma
      checklist_count recent_win_rate = "RED" := by
  simp [suggest_market_regime, hw]

/-- Witness for `regime_feedback_forces_red`: GREEN trend inputs, empty
checklist, win rate 10. -/
theorem regime_feedback_forces_red_witness :
    suggest_market_regime 105 100 52 50 0 10 = "RED" :=
  regime_feedback_forces_red 105 100 52 50 0 10 (by norm_num)

/-- C9: any regime string other than GREEN/YELLOW/RED — UNKNOWN and ERROR
included — gets the GREEN parameter set (`tor_limit = 5`,
`r_multiplier = 1`) from `get_regime_params`. -/
theorem get_regime_params_default (regime : String)
    (h1 : regime ≠ "GREEN") (h2 : regime ≠ "YELLOW") (h3 : regime ≠ "RED") :
    get_regime_params regime = get_regime_params "GREEN" ∧
    (get_regime_params regime).tor_limit = 5 ∧
    (get_regime_params regime).r_multiplier = 1 := by
  simp [get_regime_params, h1, h2, h3]

/-- Witness for `get_regime_params_default` at the strings UNKNOWN and
ERROR actually returned by the classifier on data failure. -/
theorem get_regime_params_default_witness :
    (get_regime_params "UNKNOWN" = get_regime_params "GREEN" ∧
      (get_regime_params "UNKNOWN").tor_limit = 5 ∧
      (get_regime_params "UNKNOWN").r_multiplier = 1) ∧
    (get_regime_params "ERROR" = get_regime_params "GREEN" ∧
      (get_regime_params "ERROR").tor_limit = 5 ∧
      (get_regime_params "ERROR").r_multiplier = 1) :=
  ⟨get_regime_params_default "UNKNOWN" (by decide) (by decide) (by decide),
   get_regime_params_default "ERROR" (by decide) (by decide) (by decide)⟩

/-- C10: both open-risk computations return `0` whenever the 1R unit is
not positive; the division is guarded. -/
theorem or_guard_nonpositive_unit (e s : ℚ) (q : ℤ) (u : ℚ) (hu : u ≤ 0) :
    calculate_or_r e s q u = 0 ∧ calculate_dynamic_or e s q u = 0 := by
  have h0 : ¬ u > 0 := not_lt.mpr hu
  constructor
  · simp [calculate_or_r, h0]
  · by_cases hse : s ≥ e <;> simp [calculate_dynamic_or, hse, h0]

/-- Witness for `or_guard_nonpositive_unit` at a zero 1R unit. -/
theorem or_guard_nonpositive_unit_witness :
    calculate_or_r 100 95 20 0 = 0 ∧ calculate_dynamic_or 100 95 20 0 = 0 :=
  or_guard_nonpositive_unit 100 95 20 0 (by norm_num)

/-- C8: `update_stop_loss` touches only the `stop_loss` field of the
addressed ticker's row — every other ticker's row is returned unchanged,
and on the addressed row `initial_stop_loss`, `entry_price`, `quantity`,
`sector`, `entry_date` and `breakdown_low` are all preserved. -/
theorem update_stop_loss_frame (pf : Portfolio) (ticker : String) (ns : ℚ) :
    (∀ tk, tk ≠ ticker → update_stop_loss pf ticker ns tk = pf tk) ∧
    (∀ p p', pf ticker = some p →
      update_stop_loss pf ticker ns ticker = some p' →
      p'.stop_loss = ns ∧
      p'.initial_stop_loss = p.initial_stop_loss ∧
      p'.entry_price = p.entry_price ∧
      p'.quantity = p.quantity ∧
      p'.sector = p.sector ∧
      p'.entry_date = p.entry_date ∧
      p'.breakdown_low = p.breakdown_low) := by
  constructor
  · intro tk htk
    simp [update_stop_loss, htk]
  · intro p p' hp hp'
    have h1 : update_stop_loss pf ticker ns ticker
        = some { p with stop_loss := ns } := by
      simp [update_stop_loss, hp]
    rw [h1] at hp'
    cases Option.some.inj hp'
    exact ⟨rfl, rfl, rfl, rfl, rfl, rfl, rfl⟩

/-- Witness for `update_stop_loss_frame`: moving AAPL's stop to 100 on the
sample portfolio leaves MSFT's row alone and preserves AAPL's other
fields. -/
theorem update_stop_loss_frame_witness :
    update_stop_loss pfEx "AAPL" 100 "MSFT" = pfEx "MSFT" ∧
    ({ posAAPL with stop_loss := (100 : ℚ) }.stop_loss = 100 ∧
     { posAAPL with stop_loss := (100 : ℚ) }.initial_stop_loss
        = posAAPL.initial_stop_loss ∧
     { posAAPL with stop_loss := (100 : ℚ) }.entry_price = posAAPL.entry_price ∧
     { posAAPL with stop_loss := (100 : ℚ) }.quantity = posAAPL.quantity ∧
     { posAAPL with stop_loss := (100 : ℚ) }.sector = posAAPL.sector ∧
     { posAAPL with stop_loss := (100 : ℚ) }.entry_date = posAAPL.entry_date ∧
     { posAAPL with stop_loss := (100 : ℚ) }.breakdown_low
        = posAAPL.breakdown_low) :=
  ⟨(update_stop_loss_frame pfEx "AAPL" 100).1 "MSFT" (by decide),
   (update_stop_loss_frame pfEx "AAPL" 100).2 posAAPL
      { posAAPL with stop_loss := (100 : ℚ) } (by rfl)
      (by simp [update_stop_loss, pfEx])⟩

/-- C2 counterexample: the claim says every exit operation clamps the
requested quantity to the held quantity, but `process_partial_exit` does
not — asking it to exit 10 shares of a 5-share position records an exit of
10 shares (not `min 10 5 = 5`) and credits P&L for all 10. -/
theorem exit_clamp_counterexample :
    (processPartialExit "XOM" posSmall 10 12 10 "2026-02-02").row.exit_qty
        ≠ min 10 posSmall.quantity ∧
    (processPartialExit "XOM" posSmall 10 12 10 "2026-02-02").row.exit_qty
        = 10 ∧
    posSmall.quantity = 5 ∧
    (processPartialExit "XOM" posSmall 10 12 10 "2026-02-02").pnl_dollars
        = (12 - 10) * 10 := by
  refine ⟨by decide, by rfl, by rfl, ?_⟩
  norm_num [processPartialExit, posSmall]

/-- C2 (amended): `close_position` clamps the requested quantity to
`min qty_to_close quantity`, decrements by the clamped amount, and deletes
the row exactly when the remainder is ≤ 0; `process_partial_exit` uses the
requested quantity unclamped — it records it, credits P&L on it, decrements
by it — and likewise deletes the row exactly when the remainder is ≤ 0. -/
theorem exit_quantity_accounting
    (t1 : String) (pos1 : Position) (x1 : ℚ) (qc : ℤ) (d1 : String)
    (t2 : String) (pos2 : Position) (qe : ℤ) (x2 e2 : ℚ) (d2 : String) :
    ((close_position t1 pos1 x1 qc d1).row.exit_qty = min qc pos1.quantity ∧
     (close_position t1 pos1 x1 qc d1).pnl_dollars
        = (x1 - pos1.entry_price) * ((min qc pos1.quantity : ℤ) : ℚ) ∧
     ((close_position t1 pos1 x1 qc d1).new_position = none ↔
        pos1.quantity - min qc pos1.quantity ≤ 0) ∧
     (∀ p', (close_position t1 pos1 x1 qc d1).new_position = some p' →
        p'.quantity = pos1.quantity - min qc pos1.quantity)) ∧
    ((processPartialExit t2 pos2 qe x2 e2 d2).row.exit_qty = qe ∧
     (processPartialExit t2 pos2 qe x2 e2 d2).pnl_dollars
        = (x2 - e2) * (qe : ℚ) ∧
     ((processPartialExit t2 pos2 qe x2 e2 d2).new_position = none ↔
        pos2.quantity - qe ≤ 0) ∧
     (∀ p', (processPartialExit t2 pos2 qe x2 e2 d2).new_position = some p' →
        p'.quantity = pos2.quantity - qe)) := by
  have hmin : (if qc > pos1.quantity then pos1.quantity else qc)
      = min qc pos1.quantity := by
    split_ifs <;> omega
  constructor
  · refine ⟨?_, ?_, ?_, ?_⟩
    · simp [close_position, hmin]
    · simp [close_position, hmin]
    · simp only [close_position, hmin]
      split_ifs with h
      · exact ⟨fun hc => absurd hc (by simp), fun hc => absurd hc (by omega)⟩
      · exact ⟨fun _ => by omega, fun _ => rfl⟩
    · intro p' hp'
      simp only [close_position, hmin] at hp'
      by_cases h : pos1.quantity - min qc pos1.quantity > 0
      · rw [if_pos h] at hp'
        cases Option.some.inj hp'
        rfl
      · rw [if_neg h] at hp'
        exact Option.noConfusion hp'
  · refine ⟨by rfl, by rfl, ?_, ?_⟩
    · simp only [processPartialExit]
      split_ifs with h
      · exact ⟨fun _ => h, fun _ => rfl⟩
      · exact ⟨fun hc => absurd hc (by simp), fun hc => absurd hc h⟩
    · intro p' hp'
      simp only [processPartialExit] at hp'
      by_cases h : pos2.quantity - qe ≤ 0
      · rw [if_pos h] at hp'
        exact Option.noConfusion hp'
      · rw [if_neg h] at hp'
        cases Option.some.inj hp'
        rfl

/-- Witness for `exit_quantity_accounting`: closing 25 of AAPL's 20 shares
clamps to 20 and deletes the row; a partial exit of 4 of MSFT's 10 shares
records 4 and leaves 6 shares. -/
theorem exit_quantity_accounting_witness :
    (close_position "AAPL" posAAPL 110 25 "2026-02-02").row.exit_qty
        = min 25 posAAPL.quantity ∧
    ((close_position "AAPL" posAAPL 110 25 "2026-02-02").new_position = none ↔
        posAAPL.quantity - min 25 posAAPL.quantity ≤ 0) ∧
    (processPartialExit "MSFT" posMSFT 4 55 50 "2026-02-02").row.exit_qty = 4 ∧
    { posMSFT with quantity := (6 : ℤ) }.quantity = posMSFT.quantity - 4 :=
  ⟨(exit_quantity_accounting "AAPL" posAAPL 110 25 "2026-02-02"
      "MSFT" posMSFT 4 55 50 "2026-02-02").1.1,
   (exit_quantity_accounting "AAPL" posAAPL 110 25 "2026-02-02"
      "MSFT" posMSFT 4 55 50 "2026-02-02").1.2.2.1,
   (exit_quantity_accounting "AAPL" posAAPL 110 25 "2026-02-02"
      "MSFT" posMSFT 4 55 50 "2026-02-02").2.1,
   (exit_quantity_accounting "AAPL" posAAPL 110 25 "2026-02-02"
      "MSFT" posMSFT 4 55 50 "2026-02-02").2.2.2.2
      { posMSFT with quantity := (6 : ℤ) } (by decide)⟩

/-- C7: `close_position` records
`r_multiple = (exit - entry) / |entry - initial_stop|` with the frozen
initial stop as denominator, records `0` instead of failing when that
denominator is zero, and on the worked example (entry 100, frozen stop 95,
exit 110, 20 shares) yields `r_multiple = 2` and a 200-dollar equity
credit. -/
theorem close_position_r_multiple (t : String) (pos : Position) (x : ℚ)
    (qc : ℤ) (d : String) (s : ℚ) (hs : pos.initial_stop_loss = some s) :
    ((|pos.entry_price - s| ≠ 0 →
        (close_position t pos x qc d).row.r_multiple
          = (x - pos.entry_price) / |pos.entry_price - s|) ∧
     (|pos.entry_price - s| = 0 →
        (close_position t pos x qc d).row.r_multiple = 0)) ∧
    ((close_position "AAPL" posAAPL 110 20 d).row.r_multiple = 2 ∧
     (close_position "AAPL" posAAPL 110 20 d).pnl_dollars = 200) := by
  refine ⟨⟨?_, ?_⟩, ?_, ?_⟩
  · intro hne
    simp [close_position, hs, hne]
  · intro heq
    simp [close_position, hs, heq]
  · norm_num [close_position, posAAPL]
  · norm_num [close_position, posAAPL]

/-- Witness for `close_position_r_multiple`: the worked example at AAPL and
the degenerate position whose frozen stop equals its entry. -/
theorem close_position_r_multiple_witness :
    ((close_position "AAPL" posAAPL 110 20 "2026-02-02").row.r_multiple = 2 ∧
     (close_position "AAPL" posAAPL 110 20 "2026-02-02").pnl_dollars = 200) ∧
    (close_position "ZZZ" posDegen 110 10 "2026-02-02").row.r_multiple = 0 :=
  ⟨(close_position_r_multiple "AAPL" posAAPL 110 20 "2026-02-02" 95
      (by rfl)).2,
   (close_position_r_multiple "ZZZ" posDegen 110 10 "2026-02-02" 100
      (by rfl)).1.2 (by norm_num [posDegen])⟩

/-- C3: merging an additive fill into an existing position with positive
old and new quantities gives the volume-weighted average entry price, which
lies between the old and new fill prices; the quantity is the exact sum;
and both `stop_loss` and `initial_stop_loss` are reset to the new fill's
stop. -/
theorem add_position_merge (old : Position) (entry stop : ℚ) (qty : ℤ)
    (sector today : String) (hoq : 0 < old.quantity) (hq : 0 < qty) :
    (add_position (some old) entry stop qty sector today).entry_price
        = (old.entry_price * (old.quantity : ℚ) + entry * (qty : ℚ)) /
            ((old.quantity + qty : ℤ) : ℚ) ∧
    min old.entry_price entry
        ≤ (add_position (some old) entry stop qty sector today).entry_price ∧
    (add_position (some old) entry stop qty sector today).entry_price
        ≤ max old.entry_price entry ∧
    (add_position (some old) entry stop qty sector today).quantity
        = old.quantity + qty ∧
    (add_position (some old) entry stop qty sector today).stop_loss = stop ∧
    (add_position (some old) entry stop qty sector today).initial_stop_loss
        = some stop := by
  have hm : (0 : ℚ) < (old.quantity : ℚ) := by exact_mod_cast hoq
  have hn : (0 : ℚ) < (qty : ℚ) := by exact_mod_cast hq
  have hmn : (0 : ℚ) < (old.quantity : ℚ) + (qty : ℚ) := by linarith
  have hwac : (add_position (some old) entry stop qty sector today).entry_price
      = (old.entry_price * (old.quantity : ℚ) + entry * (qty : ℚ)) /
          ((old.quantity : ℚ) + (qty : ℚ)) := by
    simp [add_position]
  refine ⟨by rw [hwac]; push_cast; ring_nf, ?_, ?_, by simp [add_position],
    by simp [add_position], by simp [add_position]⟩
  · rw [hwac, le_div_iff₀ hmn]
    rcases le_total old.entry_price entry with h | h
    · rw [min_eq_left h]
      nlinarith
    · rw [min_eq_right h]
      nlinarith
  · rw [hwac, div_le_iff₀ hmn]
    rcases le_total old.entry_price entry with h | h
    · rw [max_eq_right h]
      nlinarith
    · rw [max_eq_left h]
      nlinarith

/-- Witness for `add_position_merge`: merging a 10-share fill at 110 into
the 20-share AAPL position at 100. -/
theorem add_position_merge_witness :
    (add_position (some posAAPL) 110 104 10 "Tech/AI" "2026-02-02").entry_price
        = (posAAPL.entry_price * (posAAPL.quantity : ℚ) + 110 * ((10 : ℤ) : ℚ)) /
            ((posAAPL.quantity + 10 : ℤ) : ℚ) ∧
    min posAAPL.entry_price 110
        ≤ (add_position (some posAAPL) 110 104 10 "Tech/AI" "2026-02-02").entry_price ∧
    (add_position (some posAAPL) 110 104 10 "Tech/AI" "2026-02-02").entry_price
        ≤ max posAAPL.entry_price 110 ∧
    (add_position (some posAAPL) 110 104 10 "Tech/AI" "2026-02-02").quantity
        = posAAPL.quantity + 10 ∧
    (add_position (some posAAPL) 110 104 10 "Tech/AI" "2026-02-02").stop_loss
        = 104 ∧
    (add_position (some posAAPL) 110 104 10 "Tech/AI" "2026-02-02").initial_stop_loss
        = some 104 :=
  add_position_merge posAAPL 110 104 10 "Tech/AI" "2026-02-02"
    (by decide) (by decide)

/-- C6: with `entry > stop > 0`, positive equity and a nonnegative regime
multiplier, the sizing block recommends
`min(floor(equity * 0.01 * r / (entry - stop)), floor(equity * 0.20 / entry))`
shares; on the worked example (equity 10000, GREEN multiplier 1, entry 100,
stop 95) it yields 20 shares occupying exactly 1 R; and whenever
`entry ≤ stop` it produces no sizing at all. -/
theorem sizing_final_shares (equity entry stop r : ℚ)
    (he : 0 < equity) (hr : 0 ≤ r) (hs : 0 < stop) (hes : stop < entry) :
    Option.map SizingResult.final_shares (sizePosition equity entry stop r)
        = some (min ⌊equity * (1/100) * r / (entry - stop)⌋
                    ⌊equity * (20/100) / entry⌋) ∧
    sizePosition 10000 100 95 1
        = some { theoretical_shares := 20, max_cap_shares := 20,
                 final_shares := 20, final_or_r := 1 } ∧
    (∀ equity' entry' stop' r', entry' ≤ stop' →
        sizePosition equity' entry' stop' r' = none) := by
  refine ⟨?_, ?_, ?_⟩
  · have hcond : entry > stop ∧ entry > 0 := ⟨hes, lt_trans hs hes⟩
    have h1 : (0 : ℚ) ≤ equity * (BASE_1R_PCT * r) / (entry - stop) := by
      apply div_nonneg _ (by linarith)
      apply mul_nonneg (le_of_lt he)
      exact mul_nonneg (by norm_num [BASE_1R_PCT]) hr
    have h2 : (0 : ℚ) ≤ equity * MAX_POS_SIZE_PCT / entry := by
      apply div_nonneg _ (by linarith [hcond.2])
      exact mul_nonneg (le_of_lt he) (by norm_num [MAX_POS_SIZE_PCT])
    simp only [sizePosition, if_pos hcond]
    have e1 : pyInt (equity * (BASE_1R_PCT * r) / (entry - stop))
        = ⌊equity * (1/100) * r / (entry - stop)⌋ := by
      rw [pyInt, if_pos h1, BASE_1R_PCT, mul_assoc]
    have e2 : pyInt (equity * MAX_POS_SIZE_PCT / entry)
        = ⌊equity * (20/100) / entry⌋ := by
      rw [pyInt, if_pos h2, MAX_POS_SIZE_PCT]
    rw [e1, e2]
    rfl
  · norm_num [sizePosition, pyInt, BASE_1R_PCT, MAX_POS_SIZE_PCT]
  · intro equity' entry' stop' r' hle
    have : ¬ (entry' > stop' ∧ entry' > 0) := by
      intro hc
      exact absurd hc.1 (not_lt.mpr hle)
    simp [sizePosition, this]

/-- Witness for `sizing_final_shares` at the worked example, plus the
InvalidInput branch at `entry = 95 ≤ stop = 100`. -/
theorem sizing_final_shares_witness :
    Option.map SizingResult.final_shares (sizePosition 10000 100 95 1)
        = some (min ⌊(10000 : ℚ) * (1/100) * 1 / (100 - 95)⌋
                    ⌊(10000 : ℚ) * (20/100) / 100⌋) ∧
    sizePosition 10000 100 95 1
        = some { theoretical_shares := 20, max_cap_shares := 20,
                 final_shares := 20, final_or_r := 1 } ∧
    sizePosition 10000 95 100 1 = none :=
  ⟨(sizing_final_shares 10000 100 95 1 (by norm_num) (by norm_num)
      (by norm_num) (by norm_num)).1,
   (sizing_final_shares 10000 100 95 1 (by norm_num) (by norm_num)
      (by norm_num) (by norm_num)).2.1,
   (sizing_final_shares 10000 100 95 1 (by norm_num) (by norm_num)
      (by norm_num) (by norm_num)).2.2 10000 95 100 1 (by norm_num)⟩

/-- First exit row of the sample AAPL trade group: 10 shares at 110,
`r_multiple = (110 - 100) / 5 = 2`. -/
def rowEx1 : TradeRow :=
  { ticker := "AAPL(P)", entry_date := "2026-01-05", exit_date := "2026-01-10",
    entry_price := 100, exit_price := 110, r_multiple := 2,
    trade_id := "AAPL_2026-01-05", exit_qty := 10 }

/-- Second exit row of the sample AAPL trade group: 10 shares at 105,
`r_multiple = (105 - 100) / 5 = 1`. -/
def rowEx2 : TradeRow :=
  { ticker := "AAPL", entry_date := "2026-01-05", exit_date := "2026-01-12",
    entry_price := 100, exit_price := 105, r_multiple := 1,
    trade_id := "AAPL_2026-01-05", exit_qty := 10 }

/-- The sample trade group: two partial exits fully closing a 20-share
position with entry 100 and frozen stop 95. -/
def rowsEx : List TradeRow := [rowEx1, rowEx2]

/-- C1: for a trade group whose rows share one `trade_id`, one entry price
`e` and one nonzero per-share risk unit `u` (every stored
`r_multiple` being `(exit - e) / u` as written by the exit pipeline), and
whose summed `exit_qty` equals the position's positive quantity `Q`, the
group's `total_trade_r` computed by `calculate_real_expectancy` equals the
total exit P&L in currency divided by `u * Q`. -/
theorem expectancy_group_total (rows : List TradeRow) (tid : String)
    (e u : ℚ) (Q : ℤ) (hu : u ≠ 0) (hQ : 0 < Q)
    (_htid : ∀ r ∈ rows, r.trade_id = tid)
    (hrows : ∀ r ∈ rows,
      r.entry_price = e ∧ r.r_multiple = (r.exit_price - e) / u)
    (hsum : total_qty rows = Q) :
    total_trade_r rows = total_pnl rows / (u * (Q : ℚ)) := by
  have hQ' : ((Q : ℤ) : ℚ) ≠ 0 := by
    exact_mod_cast (ne_of_gt hQ)
  unfold total_trade_r total_pnl
  rw [hsum]
  have h1 : rows.map
        (fun r => r.r_multiple * ((r.exit_qty : ℚ) / ((Q : ℤ) : ℚ)))
      = rows.map
        (fun r => ((r.exit_price - e) * (r.exit_qty : ℚ)) * (1 / (u * (Q : ℚ)))) := by
    apply List.map_congr_left
    intro r hr
    rw [(hrows r hr).2]
    field_simp
  have h2 : rows.map (fun r => (r.exit_price - r.entry_price) * (r.exit_qty : ℚ))
      = rows.map (fun r => (r.exit_price - e) * (r.exit_qty : ℚ)) := by
    apply List.map_congr_left
    intro r hr
    rw [(hrows r hr).1]
  rw [h1, h2, List.sum_map_mul_right, mul_one_div]

/-- Witness for `expectancy_group_total`: the two-row AAPL group (entry
100, risk unit 5, 20 shares fully exited) has
`total_trade_r = total P&L / (5 * 20)`. -/
theorem expectancy_group_total_witness :
    total_trade_r rowsEx = total_pnl rowsEx / (5 * ((20 : ℤ) : ℚ)) :=
  expectancy_group_total rowsEx "AAPL_2026-01-05" 100 5 20
    (by norm_num) (by norm_num) (by decide)
    (by
      intro r hr
      simp only [rowsEx, List.mem_cons, List.not_mem_nil, or_false] at hr
      rcases hr with h | h <;> subst h <;>
        exact ⟨by norm_num [rowEx1, rowEx2], by norm_num [rowEx1, rowEx2]⟩)
    (by decide)

end RiskOS
